import Mathlib

/-!
Verification of the Tunnel Supervisor logic of the ssh-tunnel-manager
repository (Go). The definitions below are a shallow embedding of the
relevant parts of src/main.go (primary variant) and of the near-duplicate
variant in src/unnamed/part_002: the tunnel record, the model state held by
the Bubbletea program, tunnel creation (finalizeTunnel), the log ring
buffer (the logMsg case of Update and streamTunnelLogs), the kill/delete
path (the "d" key case of Update), the log-reading slice (renderBody), and
the host-selection step of the wizard (handleEnter, stepHost case).

External effects are made explicit: the outcome of cmd.StderrPipe() and
cmd.Start() become boolean parameters, wall-clock timestamps become a
string parameter, and the spawned command line becomes a record value.
-/

namespace SSHTunnelManager

/-- The `view` enumeration of src/main.go lines 21-27. -/
inductive view where
  | viewMain
  | viewNewTunnel
  | viewQuitConfirm
  deriving DecidableEq, Repr

/-- The `tunnelStep` enumeration of src/main.go lines 29-39. -/
inductive tunnelStep where
  | stepHost
  | stepManualHost
  | stepRemotePort
  | stepLocalPort
  | stepTag
  | stepVerbose
  | stepConnecting
  deriving DecidableEq, Repr

/-- The `tunnel` struct of src/main.go lines 41-52. The opaque handles
`cmd *exec.Cmd` and `logChan chan string` are embedded as the booleans
`hasCmd` and `hasLogChan` recording whether they are non-nil, which is all
the control logic ever inspects about them. -/
structure tunnel where
  id : Nat
  tag : String
  host : String
  localPort : String
  remotePort : String
  verbose : Bool
  hasCmd : Bool
  logs : List String
  active : Bool
  hasLogChan : Bool
  deriving DecidableEq, Repr

/-- The supervisor-relevant fields of the `model` struct of src/main.go
lines 67-91 (UI-only fields such as the spinner, the bubbles list and the
window size are omitted; `err` is the wizard's inline error value). -/
structure model where
  view : view
  tunnels : List tunnel
  selectedTunnel : Nat
  step : tunnelStep
  hosts : List String
  cursor : Nat
  input : String
  tempHost : String
  tempRemote : String
  tempLocal : String
  tempTag : String
  tempVerbose : Bool
  err : Option String
  nextTunnelID : Nat
  deriving DecidableEq, Repr

/-- The trim step of the log ring buffer: src/main.go lines 209-211
(`if len(logs) > 100 { logs = logs[1:] }`), identical in
src/unnamed/part_002 lines 613-615. -/
def trimLogs (logs : List String) : List String :=
  if logs.length > 100 then logs.drop 1 else logs

/-- One log-append mutation: the logMsg case of Update, src/main.go lines
206-211 (append the line when it is nonempty, then trim), with the same
append-then-trim shape in streamTunnelLogs, src/unnamed/part_002 lines
610-617. -/
def appendLogLine (logs : List String) (line : String) : List String :=
  if line = "" then logs else trimLogs (logs ++ [line])

/-- The log-reading slice of renderBody (src/main.go lines 685-694 and
src/unnamed/part_002 lines 921-927): take the last `maxLines` entries
(`start := len - maxLines; if start < 0 { start = 0 }; logs[start:]`).
This realises the spec operation Logs(id, maxLines). Nat subtraction
performs the clamp at zero. -/
def lastLines (logs : List String) (maxLines : Nat) : List String :=
  logs.drop (logs.length - maxLines)

/-- The seed log entry written at tunnel creation, src/main.go line 490:
`fmt.Sprintf("[%s] Tunnel started", time.Now().Format("15:04:05"))`,
with the formatted wall-clock time passed in as `ts`. -/
def seedLog (ts : String) : String :=
  "[" ++ ts ++ "] Tunnel started"

/-- The ssh argument list built by finalizeTunnel, src/main.go lines
458-462: `["-N", "-L", localPort:localhost:remotePort]`, then `"-v"` when
verbose, then the host. -/
def sshArgs (localPort remotePort host : String) (verbose : Bool) : List String :=
  ["-N", "-L", localPort ++ ":localhost:" ++ remotePort]
    ++ (if verbose then ["-v"] else []) ++ [host]

/-- An external process invocation: the program, its argument list, and
which output streams are piped for capture. -/
structure spawnReq where
  prog : String
  args : List String
  captureStderr : Bool
  captureStdout : Bool
  deriving DecidableEq, Repr

/-- The spawn request issued by finalizeTunnel, src/main.go lines 458-467:
`exec.Command("ssh", args...)` followed by `cmd.StderrPipe()`; stdout is
never piped. -/
def tunnelSpawnReq (m : model) : spawnReq :=
  { prog := "ssh"
    args := sshArgs m.tempLocal m.tempRemote m.tempHost m.tempVerbose
    captureStderr := true
    captureStdout := false }

/-- The state transition of finalizeTunnel, src/main.go lines 457-510.
`pipeOk` is the outcome of `cmd.StderrPipe()` and `startOk` the outcome of
`cmd.Start()`; on either failure the code does `return m, nil`, leaving
the model untouched. On success it registers a new tunnel built from the
temp fields with `active=true`, the single seed log entry, the current
`nextTunnelID`, then increments the counter, returns to the main view and
selects the new tunnel (`len(m.tunnels) - 1` after the append). -/
def finalizeTunnel (m : model) (pipeOk startOk : Bool) (ts : String) : model :=
  if pipeOk = false then m
  else if startOk = false then m
  else
    let t : tunnel :=
      { id := m.nextTunnelID
        tag := m.tempTag
        host := m.tempHost
        localPort := m.tempLocal
        remotePort := m.tempRemote
        verbose := m.tempVerbose
        hasCmd := true
        logs := [seedLog ts]
        active := true
        hasLogChan := true }
    { m with
        tunnels := m.tunnels ++ [t]
        nextTunnelID := m.nextTunnelID + 1
        view := .viewMain
        selectedTunnel := m.tunnels.length }

/-- The initial model, src/main.go lines 161-168: empty tunnel collection,
`nextTunnelID = 1`, main view; the host list comes from getSSHHosts() and
is passed in as a parameter. Fields absent from the Go literal take Go
zero values (empty strings, nil error, step 0 = stepHost, cursor 0). -/
def initialModel (hosts : List String) : model :=
  { view := .viewMain
    tunnels := []
    selectedTunnel := 0
    step := .stepHost
    hosts := hosts
    cursor := 0
    input := ""
    tempHost := ""
    tempRemote := ""
    tempLocal := ""
    tempTag := ""
    tempVerbose := false
    err := none
    nextTunnelID := 1 }

/-- getSSHHosts when `$HOME/.ssh/config` cannot be opened, src/main.go
lines 804-807: it returns the empty slice. -/
def getSSHHostsUnavailable : List String := []

/-- The deactivation step of the delete path, src/main.go lines 322-325:
`if t.active && t.cmd != nil { t.cmd.Process.Kill(); t.active = false }`.
The returned boolean records whether the kill signal was issued. -/
def stopTunnel (t : tunnel) : tunnel × Bool :=
  if t.active && t.hasCmd then ({ t with active := false }, true) else (t, false)

/-- A control-surface operation of the supervisor: a Start attempt (the
wizard temp fields plus the spawn outcomes and the timestamp) or the
delete of the tunnel at a list index (the "d" key case of Update). -/
inductive supOp where
  | start (tag host localPort remotePort : String) (verbose : Bool)
      (pipeOk startOk : Bool) (ts : String)
  | delete (idx : Nat)
  deriving DecidableEq, Repr

/-- Whether a supervisor operation is a successful Start (both the pipe
setup and the subprocess spawn succeed). -/
def startSucceeds : supOp → Bool
  | .start _ _ _ _ _ pipeOk startOk _ => pipeOk && startOk
  | .delete _ => false

/-- Apply one supervisor operation to the model. A Start sets the wizard
temp fields (the preceding wizard steps, src/main.go lines 405-452) and
runs finalizeTunnel. A delete follows src/main.go lines 317-333: when the
index is in range, run the deactivation step on that tunnel, remove it
from the collection, and adjust `selectedTunnel` exactly as the code does;
`nextTunnelID` is never touched. -/
def applyOp (m : model) (op : supOp) : model :=
  match op with
  | .start tag host lp rp vb pipeOk startOk ts =>
      finalizeTunnel
        { m with tempTag := tag, tempHost := host, tempLocal := lp,
                 tempRemote := rp, tempVerbose := vb }
        pipeOk startOk ts
  | .delete idx =>
      if h : idx < m.tunnels.length then
        let stopped := m.tunnels.set idx (stopTunnel (m.tunnels.get ⟨idx, h⟩)).1
        let remaining := stopped.take idx ++ stopped.drop (idx + 1)
        { m with
            tunnels := remaining
            selectedTunnel :=
              if remaining.length ≤ idx ∧ 0 < idx then idx - 1
              else m.selectedTunnel }
      else m

/-- The tunnel ids allocated by the successful Starts of an operation
sequence, in order: finalizeTunnel stamps the new tunnel with the current
`nextTunnelID` (src/main.go lines 479-482). -/
def allocIds (m : model) : List supOp → List Nat
  | [] => []
  | op :: ops =>
      if startSucceeds op then m.nextTunnelID :: allocIds (applyOp m op) ops
      else allocIds (applyOp m op) ops

/-- One observation of the per-tunnel log stream, as delivered by the
waitForLog command of src/main.go lines 513-533: a line arrived on the
channel, the 100 ms timeout fired, or the channel was closed because the
subprocess exited and its stderr reached end-of-stream. -/
inductive logEvent where
  | line (s : String)
  | timeout
  | closed
  deriving DecidableEq, Repr

/-- The combined effect on one tunnel of waitForLog (src/main.go lines
513-533) delivering one event and Update handling the resulting message
(src/main.go lines 202-219). A closed channel yields a nil message: no
state change and no re-arm. A received empty line also yields nil
(waitForLog only builds a logMsg for `ok && line != ""`). A timeout
yields a logMsg with an empty line: no append, re-armed iff the tunnel is
active with a live channel. A nonempty line is timestamped, appended and
trimmed, re-armed under the same condition. The returned boolean is
whether listening continues. -/
def tunnelAfterEvent (t : tunnel) (ev : logEvent) (ts : String) : tunnel × Bool :=
  match ev with
  | .closed => (t, false)
  | .timeout => (t, t.active && t.hasLogChan)
  | .line s =>
      if s = "" then (t, false)
      else ({ t with logs := appendLogLine t.logs ("[" ++ ts ++ "] " ++ s) },
            t.active && t.hasLogChan)

/-- The stepHost case of handleEnter, src/main.go lines 408-410:
`m.tempHost = m.hosts[m.cursor]` with no bounds check. Go slice indexing
panics when the index is out of range; `none` embeds that panic. -/
def handleEnterStepHost (m : model) : Option model :=
  match m.hosts.get? m.cursor with
  | some h => some { m with tempHost := h, step := .stepRemotePort }
  | none => none

/-- The "up"/"k" navigation in the host-selection step, src/main.go lines
294-298: decrement the cursor when it is positive. -/
def hostCursorUp (m : model) : model :=
  if 0 < m.cursor then { m with cursor := m.cursor - 1 } else m

/-- The "down"/"j" navigation in the host-selection step, src/main.go
lines 311-315: increment the cursor while below `len(hosts) - 1` (Nat
subtraction matches the Go comparison for the empty list, where
`len(hosts)-1` is negative and the branch is never taken). -/
def hostCursorDown (m : model) : model :=
  if m.cursor < m.hosts.length - 1 then { m with cursor := m.cursor + 1 } else m

/-- A concrete live tunnel, as registered by a successful Start. -/
def sampleTunnel : tunnel :=
  { id := 1
    tag := "happy-otter"
    host := "db.example.com"
    localPort := "5432"
    remotePort := "5432"
    verbose := false
    hasCmd := true
    logs := [seedLog "10:00:00"]
    active := true
    hasLogChan := true }

/-! ## Helper lemmas -/

/-- One log append keeps the buffer length at or below the capacity. -/
theorem appendLogLine_length_le {logs : List String} (h : logs.length ≤ 100)
    (line : String) : (appendLogLine logs line).length ≤ 100 := by
  unfold appendLogLine trimLogs
  split
  · exact h
  · split
    · simpa using h
    · rename_i h2
      simp only [List.length_append, List.length_singleton]
      simp only [not_lt, List.length_append, List.length_singleton] at h2
      omega

/-- Any sequence of log appends keeps the buffer length at or below the
capacity. -/
theorem foldl_appendLogLine_length_le (lines : List String) :
    ∀ logs : List String, logs.length ≤ 100 →
      (lines.foldl appendLogLine logs).length ≤ 100 := by
  induction lines with
  | nil => intro logs h; exact h
  | cons l ls ih =>
      intro logs h
      rw [List.foldl_cons]
      exact ih _ (appendLogLine_length_le h l)

/-- Taking the last `c` elements is unaffected by first dropping `k`
elements, as long as at least `c` elements remain. -/
theorem lastLines_drop (l : List String) (k c : Nat) (h : c + k ≤ l.length) :
    lastLines (l.drop k) c = lastLines l c := by
  unfold lastLines
  rw [List.drop_drop]
  congr 1
  simp only [List.length_drop]
  omega

/-- Appending nonempty lines one by one through the ring buffer keeps
exactly the last 100 entries of the whole stream, in order. -/
theorem foldl_appendLogLine_eq (lines : List String) :
    ∀ logs : List String, logs.length ≤ 100 → (∀ l ∈ lines, l ≠ "") →
      lines.foldl appendLogLine logs = lastLines (logs ++ lines) 100 := by
  induction lines with
  | nil =>
      intro logs h _
      simp [lastLines, Nat.sub_eq_zero_of_le h]
  | cons l ls ih =>
      intro logs h hne
      have hl : l ≠ "" := hne l (by simp)
      have hls : ∀ x ∈ ls, x ≠ "" := fun x hx => hne x (by simp [hx])
      rw [List.foldl_cons, ih _ (appendLogLine_length_le h l) hls]
      unfold appendLogLine trimLogs
      rw [if_neg hl]
      by_cases hlen : (logs ++ [l]).length > 100
      · rw [if_pos hlen]
        have hx : (1 : Nat) ≤ (logs ++ [l]).length := by simp
        rw [← List.drop_append_of_le_length hx]
        have harr : (logs ++ [l]) ++ ls = logs ++ l :: ls := by
          simp
        rw [harr, lastLines_drop]
        simp only [List.length_append, List.length_singleton] at hlen
        simp only [List.length_append, List.length_cons]
        omega
      · rw [if_neg hlen]
        congr 1
        simp

/-- On any failed spawn or failed pipe setup, finalizeTunnel returns the
model unchanged (`return m, nil`, src/main.go lines 467-477). -/
theorem finalizeTunnel_failure_eq (m : model) (ts : String)
    (pipeOk startOk : Bool) (h : pipeOk = false ∨ startOk = false) :
    finalizeTunnel m pipeOk startOk ts = m := by
  rcases h with rfl | rfl
  · simp [finalizeTunnel]
  · cases pipeOk <;> simp [finalizeTunnel]

/-- The next-id counter advances exactly on successful Starts and is never
touched by deletes. -/
theorem nextID_applyOp (m : model) (op : supOp) :
    (applyOp m op).nextTunnelID
      = if startSucceeds op then m.nextTunnelID + 1 else m.nextTunnelID := by
  cases op with
  | start tag host lp rp vb pipeOk startOk ts =>
      cases pipeOk <;> cases startOk <;>
        simp [applyOp, finalizeTunnel, startSucceeds]
  | delete idx =>
      simp only [applyOp, startSucceeds, if_neg Bool.false_ne_true]
      split <;> rfl

/-- The ids allocated over any operation sequence are the consecutive
integers starting at the current counter value. -/
theorem allocIds_eq_range' (ops : List supOp) :
    ∀ m : model, allocIds m ops
      = List.range' m.nextTunnelID (ops.countP startSucceeds) := by
  induction ops with
  | nil => intro m; simp [allocIds]
  | cons op ops ih =>
      intro m
      rw [List.countP_cons]
      by_cases h : startSucceeds op = true
      · rw [if_pos h]
        simp only [allocIds, h, if_pos]
        rw [ih (applyOp m op), nextID_applyOp, if_pos h, List.range'_succ]
      · rw [if_neg h]
        simp only [allocIds, h, if_neg, Bool.false_eq_true, ite_false]
        rw [ih (applyOp m op), nextID_applyOp, if_neg h]
        simp

/-! ## Claim theorems -/

/-- Claim C1: every successful Start appends exactly one new Tunnel whose
descriptive fields equal the request, whose active flag is true and whose
logs are the single seed entry "[HH:MM:SS] Tunnel started"; the id it
carries is the current next-id counter, which then advances by one. -/
theorem start_success_registers_one_tunnel (m : model) (ts : String) :
    (finalizeTunnel m true true ts).tunnels
      = m.tunnels ++
        [{ id := m.nextTunnelID, tag := m.tempTag, host := m.tempHost,
           localPort := m.tempLocal, remotePort := m.tempRemote,
           verbose := m.tempVerbose, hasCmd := true,
           logs := ["[" ++ ts ++ "] Tunnel started"], active := true,
           hasLogChan := true }]
    ∧ (finalizeTunnel m true true ts).nextTunnelID = m.nextTunnelID + 1 :=
  ⟨rfl, rfl⟩

/-- Claim C2: the log buffer never exceeds 100 entries after any sequence
of append mutations; an append onto a full buffer evicts exactly the
oldest entry and keeps the arrival order of the rest, and an append onto a
non-full buffer evicts nothing. -/
theorem logs_ring_buffer_invariant (logs : List String) (line : String)
    (lines : List String) (hlen : logs.length ≤ 100) (hline : line ≠ "") :
    (lines.foldl appendLogLine logs).length ≤ 100
    ∧ (logs.length = 100 → appendLogLine logs line = logs.drop 1 ++ [line])
    ∧ (logs.length < 100 → appendLogLine logs line = logs ++ [line]) := by
  refine ⟨foldl_appendLogLine_length_le lines logs hlen, ?_, ?_⟩
  · intro h100
    unfold appendLogLine trimLogs
    rw [if_neg hline, if_pos (by simp [h100]),
        List.drop_append_of_le_length (by omega)]
  · intro hlt
    unfold appendLogLine trimLogs
    rw [if_neg hline, if_neg (by simp; omega)]

/-- Witness for C2 at a concrete full buffer. -/
theorem logs_ring_buffer_invariant_witness :
    ((["c"].foldl appendLogLine (List.replicate 100 "a")).length ≤ 100)
    ∧ ((List.replicate 100 "a").length = 100 →
        appendLogLine (List.replicate 100 "a") "b"
          = (List.replicate 100 "a").drop 1 ++ ["b"])
    ∧ ((List.replicate 100 "a").length < 100 →
        appendLogLine (List.replicate 100 "a") "b"
          = List.replicate 100 "a" ++ ["b"]) :=
  logs_ring_buffer_invariant (List.replicate 100 "a") "b" ["c"]
    (by simp) (by decide)

/-- Claim C3: a Tunnel created by a successful Start carries the single
seed entry; after 150 nonempty log lines are appended sequentially,
reading the logs with a limit of 1000 returns exactly 100 lines, equal to
appended lines 51 through 150, in order (the seed entry and lines 1-50
have been evicted). -/
theorem scenario_150_lines_returns_last_100 (m : model) (ts : String)
    (lines : List String) (hn : lines.length = 150)
    (hne : ∀ l ∈ lines, l ≠ "") :
    ((finalizeTunnel m true true ts).tunnels.getLast?).map tunnel.logs
        = some [seedLog ts]
    ∧ lastLines (lines.foldl appendLogLine [seedLog ts]) 1000 = lines.drop 50
    ∧ (lastLines (lines.foldl appendLogLine [seedLog ts]) 1000).length = 100 := by
  have hfold : lines.foldl appendLogLine [seedLog ts] = lines.drop 50 := by
    rw [foldl_appendLogLine_eq lines [seedLog ts] (by simp) hne]
    unfold lastLines
    simp only [List.length_append, List.length_singleton, List.length_cons, hn,
      List.singleton_append]
    norm_num
  refine ⟨?_, ?_, ?_⟩
  · show ((m.tunnels ++ [_]).getLast?).map tunnel.logs = some [seedLog ts]
    rw [List.getLast?_concat]
    rfl
  · rw [hfold]
    unfold lastLines
    have : (lines.drop 50).length = 100 := by simp [hn]
    rw [this]
    norm_num
  · rw [hfold]
    unfold lastLines
    simp [hn]

/-- Witness for C3 at a concrete sequence of 150 lines. -/
theorem scenario_150_lines_returns_last_100_witness :
    ((finalizeTunnel (initialModel []) true true "10:00:00").tunnels.getLast?).map
        tunnel.logs = some [seedLog "10:00:00"]
    ∧ lastLines ((List.replicate 150 "x").foldl appendLogLine
        [seedLog "10:00:00"]) 1000 = (List.replicate 150 "x").drop 50
    ∧ (lastLines ((List.replicate 150 "x").foldl appendLogLine
        [seedLog "10:00:00"]) 1000).length = 100 :=
  scenario_150_lines_returns_last_100 (initialModel []) "10:00:00"
    (List.replicate 150 "x") (by simp)
    (fun l hl => by rw [List.eq_of_mem_replicate hl]; decide)

/-- Claim C4: over any operation sequence (successful Starts, failed
Starts and deletes interleaved), the ids allocated by the successful
Starts are exactly 1, 2, ... in order: distinct, strictly increasing,
beginning at 1, and never reassigned even after tunnels are removed. -/
theorem tunnel_ids_distinct_increasing (hosts : List String)
    (ops : List supOp) :
    allocIds (initialModel hosts) ops
        = List.range' 1 (ops.countP startSucceeds)
    ∧ (allocIds (initialModel hosts) ops).Nodup
    ∧ List.Pairwise (· < ·) (allocIds (initialModel hosts) ops) := by
  have h := allocIds_eq_range' ops (initialModel hosts)
  have h1 : (initialModel hosts).nextTunnelID = 1 := rfl
  rw [h1] at h
  exact ⟨h, h ▸ List.nodup_range' 1 _, h ▸ List.pairwise_lt_range' 1 _⟩

/-- Claim C5: when stderr-pipe setup or the subprocess spawn fails, the
Supervisor state is completely unchanged: no tunnel is appended and the
next-id counter does not advance. -/
theorem start_failure_leaves_collection_unchanged (m : model) (ts : String)
    (pipeOk startOk : Bool) (h : pipeOk = false ∨ startOk = false) :
    finalizeTunnel m pipeOk startOk ts = m :=
  finalizeTunnel_failure_eq m ts pipeOk startOk h

/-- Witness for C5 at a concrete failed pipe setup. -/
theorem start_failure_leaves_collection_unchanged_witness :
    finalizeTunnel (initialModel []) false true "00:00:00" = initialModel [] :=
  start_failure_leaves_collection_unchanged (initialModel []) "00:00:00"
    false true (Or.inl rfl)

/-- A model that is mid-wizard in the connecting step, about to run
finalizeTunnel, with no inline error recorded. -/
def connectingModel : model :=
  { initialModel ["db.example.com"] with
      view := .viewNewTunnel
      step := .stepConnecting
      tempHost := "db.example.com"
      tempRemote := "5432"
      tempLocal := "5432"
      tempTag := "happy-otter" }

/-- Counterexample to claim C6: at a concrete failed spawn (the
stderr pipe opens but `cmd.Start()` fails), the resulting model is
byte-for-byte the input model: the error field still holds no error, the
view is still the wizard and the step is still the connecting spinner. No
typed error exists in the code and nothing is surfaced to the user — the
failure is silently discarded, contradicting the claim that it is
reported upward and surfaced as a failure to create the tunnel. -/
theorem spawn_failure_silent_counterexample :
    (finalizeTunnel connectingModel true false "10:00:00").err = none
    ∧ (finalizeTunnel connectingModel true false "10:00:00").view
        = view.viewNewTunnel
    ∧ (finalizeTunnel connectingModel true false "10:00:00").step
        = tunnelStep.stepConnecting
    ∧ finalizeTunnel connectingModel true false "10:00:00" = connectingModel :=
  ⟨rfl, rfl, rfl, rfl⟩

/-- Amended C6: when subprocess creation or stream-pipe setup fails, the
operation is abandoned with no partial state, but the failure is silently
discarded: no error value is recorded, no message is surfaced, and the UI
is left exactly where it was (still in the connecting step). -/
theorem spawn_failure_silently_discarded (m : model) (ts : String)
    (pipeOk startOk : Bool) (h : pipeOk = false ∨ startOk = false) :
    (finalizeTunnel m pipeOk startOk ts).tunnels = m.tunnels
    ∧ (finalizeTunnel m pipeOk startOk ts).err = m.err
    ∧ (finalizeTunnel m pipeOk startOk ts).view = m.view
    ∧ (finalizeTunnel m pipeOk startOk ts).step = m.step := by
  rw [finalizeTunnel_failure_eq m ts pipeOk startOk h]
  exact ⟨rfl, rfl, rfl, rfl⟩

/-- Witness for amended C6 at a concrete failed spawn. -/
theorem spawn_failure_silently_discarded_witness :
    (finalizeTunnel (initialModel []) true false "00:00:01").tunnels
        = (initialModel []).tunnels
    ∧ (finalizeTunnel (initialModel []) true false "00:00:01").err
        = (initialModel []).err
    ∧ (finalizeTunnel (initialModel []) true false "00:00:01").view
        = (initialModel []).view
    ∧ (finalizeTunnel (initialModel []) true false "00:00:01").step
        = (initialModel []).step :=
  spawn_failure_silently_discarded (initialModel []) "00:00:01" true false
    (Or.inr rfl)

/-- Counterexample to claim C7: a live tunnel whose diagnostic stream
reaches end-of-stream (the subprocess exited on its own) keeps
`active = true`; the closed-channel event stops the listener without
touching the flag, and no later worker event changes it either, so the
flag never becomes false. -/
theorem stream_close_leaves_active_true_counterexample :
    sampleTunnel.active = true
    ∧ (tunnelAfterEvent sampleTunnel .closed "10:00:05").1.active = true
    ∧ (tunnelAfterEvent sampleTunnel .closed "10:00:05").2 = false
    ∧ (List.foldl (fun t ev => (tunnelAfterEvent t ev "10:00:06").1)
        sampleTunnel [.closed, .timeout, .closed]).active = true :=
  ⟨rfl, rfl, rfl, rfl⟩

/-- Amended C7: the active flag becomes false only through the explicit
kill path (delete or quit, with a live process handle); the log-capture
path — including the end-of-stream event raised when the subprocess exits
on its own — never modifies the flag, so a tunnel whose subprocess dies by
itself stays marked active indefinitely. -/
theorem active_only_cleared_by_kill (t : tunnel) (ev : logEvent)
    (ts : String) :
    (tunnelAfterEvent t ev ts).1.active = t.active
    ∧ (stopTunnel t).1.active = (t.active && !t.hasCmd) := by
  constructor
  · cases ev with
    | closed => rfl
    | timeout => rfl
    | line s => by_cases h : s = "" <;> simp [tunnelAfterEvent, h]
  · cases ha : t.active <;> cases hc : t.hasCmd <;>
      simp [stopTunnel, ha, hc]

/-- Claim C8: for a tunnel with a live process handle, the stop step is
idempotent: after the first call the flag is false, the kill signal is
issued on the first call exactly when the tunnel was active, and a second
call changes nothing and issues no kill. -/
theorem stop_idempotent (t : tunnel) (h : t.hasCmd = true) :
    (stopTunnel t).1.active = false
    ∧ (stopTunnel t).2 = t.active
    ∧ stopTunnel (stopTunnel t).1 = ((stopTunnel t).1, false) := by
  cases ht : t.active <;> simp [stopTunnel, h, ht]

/-- Witness for C8 at a concrete live tunnel. -/
theorem stop_idempotent_witness :
    (stopTunnel sampleTunnel).1.active = false
    ∧ (stopTunnel sampleTunnel).2 = sampleTunnel.active
    ∧ stopTunnel (stopTunnel sampleTunnel).1
        = ((stopTunnel sampleTunnel).1, false) :=
  stop_idempotent sampleTunnel rfl

/-- Claim C9: Start invokes the external ssh client as
`ssh -N -L <localPort>:localhost:<remotePort> [-v] <host>`, with `-v`
present exactly when the verbose flag is set and the host last; only the
standard-error stream is captured, never standard output. -/
theorem ssh_invocation_contract (m : model) :
    (tunnelSpawnReq m).prog = "ssh"
    ∧ (tunnelSpawnReq m).args =
        (if m.tempVerbose then
          ["-N", "-L", m.tempLocal ++ ":localhost:" ++ m.tempRemote, "-v",
            m.tempHost]
         else
          ["-N", "-L", m.tempLocal ++ ":localhost:" ++ m.tempRemote,
            m.tempHost])
    ∧ (tunnelSpawnReq m).captureStderr = true
    ∧ (tunnelSpawnReq m).captureStdout = false := by
  refine ⟨rfl, ?_, rfl, rfl⟩
  by_cases h : m.tempVerbose <;> simp [tunnelSpawnReq, sshArgs, h]

/-- Claim C10: confirming the host selection evaluates `hosts[cursor]`
with no bounds check; the access is in bounds whenever the cursor is below
the list length (and the navigation keys keep it there), but in the
reachable state where the SSH config is unavailable — the host list is
empty and the cursor is 0 — pressing enter indexes the empty list out of
bounds (a Go panic, embedded as `none`). -/
theorem host_selection_unchecked_index (m : model) :
    (m.cursor < m.hosts.length → (handleEnterStepHost m).isSome = true)
    ∧ (m.hosts = [] → handleEnterStepHost m = none)
    ∧ (m.cursor < m.hosts.length →
        (hostCursorUp m).cursor < (hostCursorUp m).hosts.length
        ∧ (hostCursorDown m).cursor < (hostCursorDown m).hosts.length) := by
  refine ⟨?_, ?_, ?_⟩
  · intro h
    unfold handleEnterStepHost
    rw [List.get?_eq_get h]
    rfl
  · intro h
    simp [handleEnterStepHost, h]
  · intro h
    constructor
    · unfold hostCursorUp
      split
      · simp only
        omega
      · exact h
    · unfold hostCursorDown
      split
      · rename_i hc
        simp only
        omega
      · exact h

/-- Witness for C10: in bounds on a one-host list at cursor 0, out of
bounds in the state reached when the SSH config file is unavailable. -/
theorem host_selection_unchecked_index_witness :
    (handleEnterStepHost (initialModel ["db.example.com"])).isSome = true
    ∧ handleEnterStepHost (initialModel getSSHHostsUnavailable) = none :=
  ⟨(host_selection_unchecked_index (initialModel ["db.example.com"])).1
      (by decide),
   (host_selection_unchecked_index
      (initialModel getSSHHostsUnavailable)).2.1 rfl⟩

end SSHTunnelManager
